import Mathlib

/-!
Verification of the append-only log writer and commit publisher of the
repository (src/logger.py, src/log_server.py), as a shallow embedding.

The embedding models the pieces the specification talks about:

* `timestamp` embeds `logger.timestamp`: the Python expression
  `datetime.utcnow().strftime("%Y-%m-%d %H:%M:%S.%f")[:-3] + " UTC"`.
  A `DateTime` value stands for the clock reading returned by
  `datetime.utcnow()`; `padDigits` renders the fixed-width zero-padded
  decimal fields produced by `strftime`, and the Python slice `[:-3]`
  becomes `pySliceDropLast3`.
* `append_log` embeds `logger.append_log`: the filesystem is an `FS`
  value holding whether the log directory exists and the optional
  contents of `logs/txt.log`; opening in append mode is
  `openAppendWrite`, which creates the file when its directory exists
  and fails with `IOErr.fileNotFound` otherwise (Python `open(p, "a")`
  creates a missing file but never a missing directory).
* `makedirs` embeds the module-level `os.makedirs(LOG_DIR, exist_ok=True)`.
* `log_text` embeds the body of the Flask `/log` handler in
  `log_server.py` (its write to the same log file).
* `commit_log` embeds `logger.commit_log`.  Each
  `subprocess.check_output` call has an externally determined outcome
  (`ProcResult`): normal exit with captured output, non-zero exit
  (Python raises `CalledProcessError` carrying the output), or a
  missing executable (Python raises `FileNotFoundError`).  The function
  body is modelled with explicit exception propagation (`Except PyExn`)
  and `except_handlers` mirrors the two `except` clauses; a `GitState`
  records the list of commit messages so that the presence of a local
  commit is observable, and the returned trace records the commands
  handed to `subprocess.check_output`, in order.
-/

namespace Logger

/-- A UTC clock reading as carried by a Python `datetime` value:
calendar fields plus the microsecond field used by `%f`. -/
structure DateTime where
  year : Nat
  month : Nat
  day : Nat
  hour : Nat
  minute : Nat
  second : Nat
  microsecond : Nat
deriving Repr, DecidableEq

/-- The character for the decimal digit `n % 10`. -/
def digitChar (n : Nat) : Char :=
  match n % 10 with
  | 0 => '0'
  | 1 => '1'
  | 2 => '2'
  | 3 => '3'
  | 4 => '4'
  | 5 => '5'
  | 6 => '6'
  | 7 => '7'
  | 8 => '8'
  | _ => '9'

/-- Zero-padded fixed-width decimal rendering: the `w` least significant
decimal digits of `n`, most significant first.  For `n < 10 ^ w` this is
exactly the zero-padded field `strftime` prints (`%Y` with `w = 4`,
`%m`, `%d`, `%H`, `%M`, `%S` with `w = 2`, `%f` with `w = 6`). -/
def padDigits : Nat → Nat → List Char
  | 0, _ => []
  | w + 1, n => padDigits w (n / 10) ++ [digitChar (n % 10)]

/-- The characters of `strftime("%Y-%m-%d %H:%M:%S.%f")`. -/
def strftimeFmt (t : DateTime) : List Char :=
  padDigits 4 t.year ++ "-".data ++ padDigits 2 t.month ++ "-".data ++
    padDigits 2 t.day ++ " ".data ++ padDigits 2 t.hour ++ ":".data ++
    padDigits 2 t.minute ++ ":".data ++ padDigits 2 t.second ++ ".".data ++
    padDigits 6 t.microsecond

/-- The Python slice `s[:-3]`: all characters but the last three. -/
def pySliceDropLast3 (l : List Char) : List Char :=
  l.take (l.length - 3)

/-- `logger.timestamp()`: `strftime("%Y-%m-%d %H:%M:%S.%f")[:-3] + " UTC"`
at clock reading `t`. -/
def timestamp (t : DateTime) : String :=
  String.mk (pySliceDropLast3 (strftimeFmt t) ++ " UTC".data)

/-- The log file path `logger.LOG_FILE` (`<ROOT>/logs/txt.log`). -/
def LOG_FILE : String :=
  "logs/txt.log"

/-- The line `append_log` builds: the f-string
`f"[{timestamp()}] [{kind}] {text}\n"`. -/
def logLine (t : DateTime) (text kind : String) : String :=
  "[" ++ timestamp t ++ "] [" ++ kind ++ "] " ++ text ++ "\n"

/-- The filesystem state the log writer touches: whether the log
directory exists, and the contents of `logs/txt.log` when that file
exists. -/
structure FS where
  dirExists : Bool
  file : Option String
deriving Repr, DecidableEq

/-- The error raised by `open(LOG_FILE, "a")` when the parent directory
is missing. -/
inductive IOErr where
  | fileNotFound
deriving Repr, DecidableEq

/-- The contents of the log file, empty when the file does not exist. -/
def fileContent (fs : FS) : String :=
  (fs.file).getD ""

/-- `os.makedirs(LOG_DIR, exist_ok=True)`, run at module import. -/
def makedirs (fs : FS) : FS :=
  { fs with dirExists := true }

/-- `open(LOG_FILE, "a")` followed by `f.write(s)`: creates the file if
absent, appends `s` at the end; fails when the parent directory is
missing (append mode never creates directories). -/
def openAppendWrite (fs : FS) (s : String) : Except IOErr FS :=
  if fs.dirExists then
    Except.ok { fs with file := some (fileContent fs ++ s) }
  else
    Except.error IOErr.fileNotFound

/-- `logger.append_log(text, kind)` at clock reading `t`, acting on
filesystem `fs`; returns the new filesystem and the value `LOG_FILE`
that the Python function returns, or the propagated I/O error. -/
def append_log (t : DateTime) (text : String) (kind : String := "INFO")
    (fs : FS) : Except IOErr (FS × String) :=
  let line := logLine t text kind
  (openAppendWrite fs line).map (fun fs1 => (fs1, LOG_FILE))

/-- The entry the Flask `/log` handler writes: the f-string
`f"[{ts}] {text}\n"` of `log_server.py` (note: no kind tag). -/
def log_text_entry (t : DateTime) (text : String) : String :=
  "[" ++ timestamp t ++ "] " ++ text ++ "\n"

/-- The write portion of the `/log` handler `log_text`: the `text`
field of the JSON payload (missing or null becomes the empty string),
the append, and the HTTP status code (200 on success, 500 when the
write raises). -/
def log_text (t : DateTime) (textField : Option String) (fs : FS) :
    FS × Nat :=
  let text := textField.getD ""
  match openAppendWrite fs (log_text_entry t text) with
  | Except.ok fs1 => (fs1, 200)
  | Except.error _ => (fs, 500)

/-- Outcome of one `subprocess.check_output` invocation, determined by
the external host: normal exit with captured output, non-zero exit with
captured output, or executable not found. -/
inductive ProcResult where
  | ok (out : String)
  | err (out : String)
  | notFound
deriving Repr, DecidableEq

/-- The outcomes the host assigns to the three git invocations
`commit_log` can make. -/
structure GitWorld where
  addRes : ProcResult
  commitRes : ProcResult
  pushRes : ProcResult
deriving Repr, DecidableEq

/-- The observable state of the local git repository: the list of
commit messages, oldest first. -/
structure GitState where
  commits : List String
deriving Repr, DecidableEq

/-- The exceptions `subprocess.check_output` raises in `commit_log`:
`CalledProcessError` (carrying the captured output) on non-zero exit,
`FileNotFoundError` when the executable is missing. -/
inductive PyExn where
  | calledProcessError (output : String)
  | fileNotFoundError
deriving Repr, DecidableEq

/-- `subprocess.check_output` as seen by the caller: the captured
output, or a raised exception. -/
def check_output (r : ProcResult) : Except PyExn String :=
  match r with
  | ProcResult.ok out => Except.ok out
  | ProcResult.err out => Except.error (PyExn.calledProcessError out)
  | ProcResult.notFound => Except.error PyExn.fileNotFoundError

/-- Python `x or default` for an optional string argument: the default
is used when the argument is `None` or falsy (the empty string). -/
def pyOr (x : Option String) (default : String) : String :=
  match x with
  | none => default
  | some s => if s = "" then default else s

/-- The two `except` clauses of `commit_log`: the value they return for
a caught exception, `none` for an exception they would not catch. -/
def except_handlers (e : PyExn) : Option (Bool × String) :=
  match e with
  | PyExn.calledProcessError output => some (false, output)
  | PyExn.fileNotFoundError => some (false, "git not found")

/-- A command line handed to `subprocess.check_output`. -/
abbrev Cmd := List String

/-- `logger.commit_log(commit_message, file_path, push)` at clock
reading `t`, on host `w` and repository state `st`.  Returns the new
repository state, the trace of commands handed to
`subprocess.check_output` in order, and the result: `Except.ok` with
the returned pair when the function returns, `Except.error` with the
exception should one escape the `try` block uncaught. -/
def commit_log (w : GitWorld) (st : GitState)
    (commit_message : Option String := none)
    (file_path : Option String := none) (push : Bool := false)
    (t : DateTime) : GitState × List Cmd × Except PyExn (Bool × String) :=
  let fp := pyOr file_path LOG_FILE
  let commit_msg := pyOr commit_message ("Auto log update: " ++ timestamp t)
  let handle : PyExn → Except PyExn (Bool × String) := fun e =>
    match except_handlers e with
    | some v => Except.ok v
    | none => Except.error e
  let tr0 : List Cmd := [["git", "add", fp]]
  match check_output w.addRes with
  | Except.error e => (st, tr0, handle e)
  | Except.ok _ =>
    let tr1 := tr0 ++ [["git", "commit", "-m", commit_msg]]
    match check_output w.commitRes with
    | Except.error e => (st, tr1, handle e)
    | Except.ok _ =>
      let st1 : GitState := { commits := st.commits ++ [commit_msg] }
      if push then
        let tr2 := tr1 ++ [["git", "push"]]
        match check_output w.pushRes with
        | Except.error e => (st1, tr2, handle e)
        | Except.ok _ => (st1, tr2, Except.ok (true, "committed and pushed"))
      else
        (st1, tr1, Except.ok (true, "committed"))

/-- Number of newline characters in a string: the number of lines a
write of it appends to a newline-terminated file. -/
def countNL (s : String) : Nat :=
  s.data.count '\n'

/-- A string matches the log entry pattern
`[<timestamp>] [<kind>] <text>\n` of the specification when it splits
into a bracketed timestamp, a bracketed kind tag, the text and a
trailing newline. -/
def matchesEntryPattern (s : String) : Prop :=
  ∃ ts kind text : String,
    s = "[" ++ ts ++ "] [" ++ kind ++ "] " ++ text ++ "\n"

end Logger

namespace Logger

/-! Helper lemmas about the fixed-width decimal fields and character
counts. -/

/-- `padDigits` always renders exactly `w` characters. -/
theorem padDigits_length (w n : Nat) : (padDigits w n).length = w := by
  induction w generalizing n with
  | zero => rfl
  | succ w ih => simp [padDigits, ih]

/-- Splitting a fixed-width decimal field: the first `b` characters are
the digits of `n / 10 ^ a`, the last `a` characters those of `n`. -/
theorem padDigits_split (a b n : Nat) :
    padDigits (a + b) n = padDigits b (n / 10 ^ a) ++ padDigits a n := by
  induction a generalizing n with
  | zero => simp [padDigits]
  | succ a ih =>
    have h1 : a + 1 + b = (a + b) + 1 := by omega
    simp only [h1, padDigits]
    rw [ih (n / 10)]
    simp [Nat.div_div_eq_div_mul, pow_succ, Nat.mul_comm, List.append_assoc]

/-- Dropping the last three characters of `l ++ m` when `m` has three
characters leaves `l`. -/
theorem take_append_three (l m : List Char) (h : m.length = 3) :
    (l ++ m).take ((l ++ m).length - 3) = l := by
  have h2 : (l ++ m).length - 3 = l.length := by simp [h]
  rw [h2]
  exact List.take_left l m

/-- Closed form of `timestamp`: the slice `[:-3]` cuts the six-digit
microsecond field down to the three-digit truncated millisecond field
`t.microsecond / 1000`. -/
theorem timestamp_eq (t : DateTime) :
    timestamp t = String.mk
      (padDigits 4 t.year ++ "-".data ++ padDigits 2 t.month ++ "-".data ++
       padDigits 2 t.day ++ " ".data ++ padDigits 2 t.hour ++ ":".data ++
       padDigits 2 t.minute ++ ":".data ++ padDigits 2 t.second ++ ".".data ++
       padDigits 3 (t.microsecond / 1000) ++ " UTC".data) := by
  have hsplit : padDigits 6 t.microsecond
      = padDigits 3 (t.microsecond / 1000) ++ padDigits 3 t.microsecond := by
    have h := padDigits_split 3 3 t.microsecond
    norm_num at h
    exact h
  unfold timestamp pySliceDropLast3 strftimeFmt
  refine congrArg String.mk ?_
  rw [hsplit, ← List.append_assoc]
  rw [take_append_three _ _ (padDigits_length 3 t.microsecond)]

/-- Every rendered timestamp has the fixed width of
`YYYY-MM-DD HH:MM:SS.mmm UTC`: 27 characters. -/
theorem timestamp_length (t : DateTime) : (timestamp t).length = 27 := by
  rw [timestamp_eq]
  simp [String.length, List.length_append, padDigits_length]

/-- A digit character is never a newline. -/
theorem digitChar_ne_nl (n : Nat) : digitChar n ≠ '\n' := by
  unfold digitChar
  split <;> decide

/-- A fixed-width decimal field contains no newline. -/
theorem padDigits_countNL (w n : Nat) : (padDigits w n).count '\n' = 0 := by
  induction w generalizing n with
  | zero => rfl
  | succ w ih =>
    simp [padDigits, List.count_append, ih, List.count_cons, digitChar_ne_nl]

/-- The strftime output contains no newline. -/
theorem countNL_strftime (t : DateTime) : ((strftimeFmt t).count '\n') = 0 := by
  simp [strftimeFmt, List.count_append, padDigits_countNL]

/-- A rendered timestamp contains no newline. -/
theorem countNL_timestamp (t : DateTime) : countNL (timestamp t) = 0 := by
  unfold countNL timestamp
  show (pySliceDropLast3 (strftimeFmt t) ++ " UTC".data).count '\n' = 0
  rw [List.count_append]
  have h1 : (pySliceDropLast3 (strftimeFmt t)).count '\n' = 0 := by
    have hsub := List.take_sublist ((strftimeFmt t).length - 3) (strftimeFmt t)
    have hle := hsub.count_le '\n'
    have h0 := countNL_strftime t
    unfold pySliceDropLast3
    omega
  rw [h1]
  rfl

/-- The newlines of an appended entry: the trailing one plus those the
caller embedded in `text` and `kind`. -/
theorem countNL_logLine (t : DateTime) (text kind : String) :
    countNL (logLine t text kind) = countNL text + countNL kind + 1 := by
  unfold logLine countNL
  simp [String.data_append, List.count_append]
  have h0 := countNL_timestamp t
  unfold countNL at h0
  have h1 : ("[" : String).data.count '\n' = 0 := rfl
  have h2 : ("] [" : String).data.count '\n' = 0 := rfl
  have h3 : ("] " : String).data.count '\n' = 0 := rfl
  have h4 : ("\n" : String).data.count '\n' = 1 := rfl
  omega

/-- A string matching the entry pattern holds at least two closing
brackets: one after the timestamp, one after the kind tag. -/
theorem pattern_bracket_count {s : String} (h : matchesEntryPattern s) :
    2 ≤ s.data.count ']' := by
  obtain ⟨ts, kind, text, rfl⟩ := h
  simp [String.data_append, List.count_append]
  have h2 : ("] [" : String).data.count ']' = 1 := rfl
  have h3 : ("] " : String).data.count ']' = 1 := rfl
  omega

end Logger

namespace Logger

/-! The claims. -/

/-- Claim C1, counterexample: the HTTP `/log` handler does not write
entries of the form `[<timestamp>] [<kind>] <text>\n`.  At clock reading
2024-01-01T00:00:00.000Z with payload text `hello`, the handler appends
`[2024-01-01 00:00:00.000 UTC] hello\n`, which has no bracketed kind
tag and does not match the pattern. -/
theorem server_write_breaks_pattern :
    log_text ⟨2024, 1, 1, 0, 0, 0, 0⟩ (some "hello") ⟨true, some ""⟩
      = (⟨true, some "[2024-01-01 00:00:00.000 UTC] hello\n"⟩, 200) ∧
    ¬ matchesEntryPattern "[2024-01-01 00:00:00.000 UTC] hello\n" := by
  constructor
  · decide
  · intro h
    have h2 := pattern_bracket_count h
    have h1 : ("[2024-01-01 00:00:00.000 UTC] hello\n" : String).data.count ']' = 1 := by
      decide
    omega

/-- Claim C1, amended: every entry `append_log` persists is a single
write matching `[<timestamp>] [<kind>] <text>\n`; the HTTP `/log`
handler instead appends `[<timestamp>] <text>\n`, a bracketed timestamp
and the text with a trailing newline but no kind tag. -/
theorem append_log_pattern_server_no_tag :
    (∀ (t : DateTime) (text kind : String),
      matchesEntryPattern (logLine t text kind)) ∧
    (∀ (t : DateTime) (tf : Option String) (f : Option String),
      log_text t tf ⟨true, f⟩
        = (⟨true, some ((f.getD "") ++
            ("[" ++ timestamp t ++ "] " ++ tf.getD "" ++ "\n"))⟩, 200)) := by
  constructor
  · intro t text kind
    exact ⟨timestamp t, kind, text, rfl⟩
  · intro t tf f
    rfl

/-- Claim C2, counterexample: when the git executable is unavailable,
`commit_log` returns `(false, "git not found")`, not
`(false, "tool not found")` as the claim states. -/
theorem commit_log_tool_not_found_counterexample :
    (commit_log ⟨ProcResult.notFound, ProcResult.notFound, ProcResult.notFound⟩
        ⟨[]⟩ none none false ⟨2024, 1, 1, 0, 0, 0, 0⟩).2.2
      = Except.ok (false, "git not found") ∧
    ("git not found" : String) ≠ "tool not found" := by
  exact ⟨rfl, by decide⟩

/-- Claim C2, amended: for every message, path and push argument, if
the version-control executable is unavailable on the host then
`commit_log` returns the pair `(false, "git not found")` (after
attempting only the stage invocation). -/
theorem commit_log_git_missing :
    ∀ (st : GitState) (msg path : Option String) (push : Bool) (t : DateTime),
      commit_log ⟨ProcResult.notFound, ProcResult.notFound, ProcResult.notFound⟩
          st msg path push t
        = (st, [["git", "add", pyOr path LOG_FILE]],
            Except.ok (false, "git not found")) := by
  intro st msg path push t
  rfl

/-- Claim C3, counterexample: with `text = "a\nb"` the single call to
`append_log` appends an entry holding two newlines, so the line count
grows by two, not by exactly one as the claim states for every text
including strings containing newlines. -/
theorem append_log_newline_counterexample :
    append_log ⟨2024, 1, 1, 0, 0, 0, 0⟩ "a\nb" "INFO" ⟨true, some ""⟩
      = Except.ok (⟨true, some "[2024-01-01 00:00:00.000 UTC] [INFO] a\nb\n"⟩,
          LOG_FILE) ∧
    countNL "[2024-01-01 00:00:00.000 UTC] [INFO] a\nb\n" = 2 ∧ (2 : Nat) ≠ 1 := by
  refine ⟨rfl, by decide, by decide⟩

/-- Claim C3, amended: a single call to `append_log` performs exactly
one write, of the single entry `[<timestamp>] [<kind>] <text>\n`
appended at the end with no existing content modified; the file's line
count grows by one plus the number of newlines embedded in `text` and
`kind` — exactly one line precisely when the arguments embed no
newline. -/
theorem append_log_single_write_line_count :
    ∀ (t : DateTime) (text kind : String) (f : Option String),
      append_log t text kind ⟨true, f⟩
        = Except.ok (⟨true, some ((f.getD "") ++ logLine t text kind)⟩, LOG_FILE) ∧
      countNL (logLine t text kind) = countNL text + countNL kind + 1 := by
  intro t text kind f
  exact ⟨rfl, countNL_logLine t text kind⟩

/-- Claim C4: `commit_log` sequencing — a failed stage returns
`(false, <output>)` with only the stage command attempted; a failed
commit returns `(false, <output>)` with no push ever invoked and no
commit recorded; a failed push after a successful stage and commit
still returns `(false, <output>)` but the local commit remains in the
repository state (no rollback). -/
theorem commit_log_step_sequencing :
    ∀ (o a b : String) (r2 r3 : ProcResult) (st : GitState)
      (msg path : Option String) (push : Bool) (t : DateTime),
      commit_log ⟨ProcResult.err o, r2, r3⟩ st msg path push t
        = (st, [["git", "add", pyOr path LOG_FILE]], Except.ok (false, o)) ∧
      commit_log ⟨ProcResult.ok a, ProcResult.err o, r3⟩ st msg path push t
        = (st, [["git", "add", pyOr path LOG_FILE],
                ["git", "commit", "-m",
                  pyOr msg ("Auto log update: " ++ timestamp t)]],
            Except.ok (false, o)) ∧
      ["git", "push"] ∉
        (commit_log ⟨ProcResult.ok a, ProcResult.err o, r3⟩ st msg path push t).2.1 ∧
      commit_log ⟨ProcResult.ok a, ProcResult.ok b, ProcResult.err o⟩ st msg path true t
        = ({ commits := st.commits ++
              [pyOr msg ("Auto log update: " ++ timestamp t)] },
           [["git", "add", pyOr path LOG_FILE],
            ["git", "commit", "-m", pyOr msg ("Auto log update: " ++ timestamp t)],
            ["git", "push"]],
           Except.ok (false, o)) := by
  intro o a b r2 r3 st msg path push t
  refine ⟨rfl, rfl, ?_, rfl⟩
  intro hmem
  simp [commit_log, check_output, except_handlers] at hmem

/-- Claim C5: `commit_log` never raises — for every host outcome of the
three external-process invocations and every combination of arguments,
the result is a returned `(bool, string)` pair, never an exception
escaping the operation. -/
theorem commit_log_never_raises :
    ∀ (w : GitWorld) (st : GitState) (msg path : Option String) (push : Bool)
      (t : DateTime),
      ∃ v : Bool × String, (commit_log w st msg path push t).2.2 = Except.ok v := by
  intro w st msg path push t
  rcases w with ⟨r1, r2, r3⟩
  cases r1 <;> cases r2 <;> cases r3 <;> cases push <;>
    simp [commit_log, check_output, except_handlers]

/-- Claim C6: `append_log` writes `[<timestamp>] [<kind>] <text>` plus
a single newline, where the timestamp is the UTC clock reading rendered
as `YYYY-MM-DD HH:MM:SS.mmm UTC` (fixed 27 characters) with the
milliseconds truncated (`microsecond / 1000`), not rounded; at clock
reading 2024-01-01T00:00:00.000Z with `text = "hello"`, `kind = "IN"`
the appended bytes are exactly
`[2024-01-01 00:00:00.000 UTC] [IN] hello\n`. -/
theorem timestamp_format_and_example :
    (∀ t : DateTime,
      timestamp t = String.mk
        (padDigits 4 t.year ++ "-".data ++ padDigits 2 t.month ++ "-".data ++
         padDigits 2 t.day ++ " ".data ++ padDigits 2 t.hour ++ ":".data ++
         padDigits 2 t.minute ++ ":".data ++ padDigits 2 t.second ++ ".".data ++
         padDigits 3 (t.microsecond / 1000) ++ " UTC".data) ∧
      (timestamp t).length = 27) ∧
    timestamp ⟨2024, 1, 1, 0, 0, 0, 0⟩ = "2024-01-01 00:00:00.000 UTC" ∧
    logLine ⟨2024, 1, 1, 0, 0, 0, 0⟩ "hello" "IN"
      = "[2024-01-01 00:00:00.000 UTC] [IN] hello\n" ∧
    append_log ⟨2024, 1, 1, 0, 0, 0, 0⟩ "hello" "IN" ⟨true, some ""⟩
      = Except.ok (⟨true, some "[2024-01-01 00:00:00.000 UTC] [IN] hello\n"⟩,
          LOG_FILE) := by
  refine ⟨fun t => ⟨timestamp_eq t, timestamp_length t⟩, by decide, by decide, rfl⟩

/-- Claim C7: on full success `commit_log` returns exactly
`(true, "committed")` without push and `(true, "committed and pushed")`
with push; with both optional arguments absent it stages the log
writer's file `LOG_FILE` and commits with the message
`Auto log update: <current timestamp>`. -/
theorem commit_log_success_and_defaults :
    ∀ (a b c : String) (st : GitState) (msg path : Option String) (t : DateTime),
      (commit_log ⟨ProcResult.ok a, ProcResult.ok b, ProcResult.ok c⟩
          st msg path false t).2.2 = Except.ok (true, "committed") ∧
      (commit_log ⟨ProcResult.ok a, ProcResult.ok b, ProcResult.ok c⟩
          st msg path true t).2.2 = Except.ok (true, "committed and pushed") ∧
      (commit_log ⟨ProcResult.ok a, ProcResult.ok b, ProcResult.ok c⟩
          st none none false t).2.1
        = [["git", "add", LOG_FILE],
           ["git", "commit", "-m", "Auto log update: " ++ timestamp t]] := by
  intro a b c st msg path t
  exact ⟨rfl, rfl, rfl⟩

/-- Claim C8, counterexample: when the log directory is missing at call
time, `append_log` does not create it — the `open` in append mode
raises and nothing is appended, so the call does not succeed. -/
theorem append_log_missing_dir_counterexample :
    append_log ⟨2024, 1, 1, 0, 0, 0, 0⟩ "hello" "INFO" ⟨false, none⟩
      = Except.error IOErr.fileNotFound ∧
    ¬ ∃ (fs1 : FS) (p : String),
        append_log ⟨2024, 1, 1, 0, 0, 0, 0⟩ "hello" "INFO" ⟨false, none⟩
          = Except.ok (fs1, p) := by
  constructor
  · rfl
  · rintro ⟨fs1, p, h⟩
    simp [append_log, openAppendWrite, Except.map] at h

/-- Claim C8, amended: the log directory is created at module import by
`os.makedirs` (not by the call); `append_log` itself creates the log
file if absent because it opens in append mode, so after module
initialisation a first call from any prior state succeeds with no
further setup, appending its entry to whatever the file held. -/
theorem makedirs_then_append_log :
    ∀ (fs : FS) (t : DateTime) (text kind : String),
      append_log t text kind (makedirs fs)
        = Except.ok (⟨true, some (fileContent fs ++ logLine t text kind)⟩,
            LOG_FILE) := by
  intro fs t text kind
  rfl

/-- Claim C9: `append_log` only ever extends the log file — either the
directory is missing and the call fails leaving the filesystem
untouched, or the new contents are exactly the old contents with the
single entry appended at the end, so the prior bytes are an unchanged
prefix. -/
theorem append_log_append_only :
    ∀ (t : DateTime) (text kind : String) (fs : FS),
      (fs.dirExists = false ∧
        append_log t text kind fs = Except.error IOErr.fileNotFound) ∨
      (fs.dirExists = true ∧
        append_log t text kind fs
          = Except.ok (⟨true, some (fileContent fs ++ logLine t text kind)⟩,
              LOG_FILE)) := by
  intro t text kind fs
  rcases fs with ⟨d, f⟩
  cases d
  · left
    exact ⟨rfl, rfl⟩
  · right
    exact ⟨rfl, rfl⟩

/-- Claim C10: `commit_log` applies its defaults to falsy arguments,
not only absent ones — passing the empty string as the message and the
empty string as the path yields exactly the behaviour of passing
neither (auto-generated message, default log file staged). -/
theorem commit_log_falsy_defaults :
    ∀ (w : GitWorld) (st : GitState) (push : Bool) (t : DateTime),
      commit_log w st (some "") (some "") push t
        = commit_log w st none none push t := by
  intro w st push t
  simp [commit_log, pyOr]

end Logger
